import Mathlib

/-!
Verification of the `ingrid_patel` Discord bot core against its
natural-language specification.

The Python sources are shallowly embedded: SQLite tables become Lean lists
of records, each repository function becomes a pure Lean function over that
state (threading the wall-clock instant and other ambient inputs as explicit
arguments), and Python exceptions become `Option`/`Except` results.
Instants that the source only ever compares arithmetically are modelled as
integer seconds since the epoch; instants the source manipulates as ISO-8601
strings stay strings.
-/

namespace IngridPatel

/-! ## Settings store (`db/repos/settings_repo.py`)

A guild's `settings` table is a key/value table with `key TEXT PRIMARY KEY`.
We model it as an association list in insertion order.
-/

/-- Python `str.isspace` characters that `str.strip()` removes (ASCII range:
space, tab, newline, carriage return, vertical tab, form feed). -/
def isPySpace (c : Char) : Bool :=
  c = ' ' || c = '\t' || c = '\n' || c = '\r' || c = '\x0b' || c = '\x0c'

/-- Embedding of Python `str.strip()` (no arguments): drop leading and
trailing whitespace.  Implemented over the character list so that the
kernel can evaluate it. -/
def pyStrip (s : String) : String :=
  ⟨((s.data.dropWhile isPySpace).reverse.dropWhile isPySpace).reverse⟩

abbrev Settings := List (String × String)

/-- Embedding of `get_setting` (settings_repo.py lines 9-27): returns the
stored value stripped of surrounding whitespace, or `none` when the key is
missing or the stripped value is blank. -/
def getSetting (st : Settings) (key : String) : Option String :=
  match st.find? (fun p => p.1 == key) with
  | none => none
  | some p =>
    let s := pyStrip p.2
    if s = "" then none else some s

/-- Embedding of `set_setting` (settings_repo.py lines 43-56): SQL upsert on
the primary key, updating the row in place when present and appending
otherwise. -/
def setSetting (st : Settings) (key value : String) : Settings :=
  if st.any (fun p => p.1 == key) then
    st.map (fun p => if p.1 == key then (key, value) else p)
  else
    st ++ [(key, value)]

/-! ## Daily scheduler gate (`services/scheduler.py`)

`master_tick` fires every 30 seconds; per guild it resolves the configured
timezone, computes the local time and local calendar date string, and runs
each of the three jobs when the local time is inside that job's fixed
trigger window and the job's persisted last-run marker differs from today's
date string.  The local clock is modelled by the local second-of-day
(`nowSec`) and the local date string (`localYmd`); timezone resolution
is modelled by the `Option` timezone argument (an unset timezone skips the
guild, scheduler.py lines 462-465).
-/

/-- Embedding of `_in_local_window` (scheduler.py lines 81-87): true when
`nowSec` lies in `[target, target + windowSeconds)` where `target` is the
trigger time as a second-of-day. -/
def inLocalWindow (nowSec : Int) (hour minute windowSeconds : Int) : Bool :=
  let target := hour * 3600 + minute * 60
  let delta := nowSec - target
  (0 ≤ delta) && (delta < windowSeconds)

/-- Embedding of `_should_run_today` (scheduler.py lines 90-96): the job may
run iff the persisted marker (read back through `get_setting`, then stripped
again) differs from today's local date string. -/
def shouldRunToday (st : Settings) (key : String) (localYmd : String) : Bool :=
  pyStrip ((getSetting st key).getD "") != localYmd

/-- Marker key persisted by the refresh job (scheduler.py lines 190, 235). -/
def refreshKey : String := "last_run_refresh_ymd"

/-- Marker key persisted by the reminders job (scheduler.py lines 265, 316). -/
def remindersKey : String := "last_run_reminders_ymd"

/-- Marker key persisted by the wishlist digest job (scheduler.py lines 350, 446). -/
def wishlistKey : String := "last_run_wishlist_ymd"

/-- Settings effect of a completed `_run_refresh_for_guild` run: every
completion path persists today's date string under `last_run_refresh_ymd`
(scheduler.py lines 190 and 235).  The job's external effects (catalog
fetches, row updates) do not touch the settings table. -/
def runRefreshJob (st : Settings) (localYmd : String) : Settings :=
  setSetting st refreshKey localYmd

/-- Settings effect of a completed `_run_reminders_for_guild` run
(scheduler.py lines 265 and 316). -/
def runRemindersJob (st : Settings) (localYmd : String) : Settings :=
  setSetting st remindersKey localYmd

/-- Settings effect of a completed `_run_wishlist_for_guild` run
(scheduler.py lines 350 and 446). -/
def runWishlistJob (st : Settings) (localYmd : String) : Settings :=
  setSetting st wishlistKey localYmd

/-- Result of one `master_tick` evaluation for one guild: which job bodies
ran, and the resulting settings state. -/
structure TickOut where
  ranRefresh : Bool
  ranReminders : Bool
  ranWishlist : Bool
  st : Settings
deriving Repr, DecidableEq

/-- Wishlist stage of `master_tick` (scheduler.py lines 499-507): window is
18:03 local, 120 seconds. -/
def tickWishlistStage (st : Settings) (ranR ranM : Bool) (nowSec : Int)
    (localYmd : String) : TickOut :=
  if inLocalWindow nowSec 18 3 120 then
    if shouldRunToday st wishlistKey localYmd then
      ⟨ranR, ranM, true, runWishlistJob st localYmd⟩
    else
      ⟨ranR, ranM, false, st⟩
  else
    ⟨ranR, ranM, false, st⟩

/-- Reminders stage of `master_tick` (scheduler.py lines 488-496): window is
18:00 local.  When the window is hit but the marker already equals today,
the source `continue`s to the next guild, skipping the wishlist stage for
this tick. -/
def tickRemindersStage (st : Settings) (ranR : Bool) (nowSec : Int)
    (localYmd : String) : TickOut :=
  if inLocalWindow nowSec 18 0 120 then
    if shouldRunToday st remindersKey localYmd then
      tickWishlistStage (runRemindersJob st localYmd) ranR true nowSec localYmd
    else
      ⟨ranR, false, false, st⟩
  else
    tickWishlistStage st ranR false nowSec localYmd

/-- One `master_tick` evaluation for one guild (scheduler.py lines 455-507):
refresh window at 17:55 local, then the reminders and wishlist stages.  A
guild with no configured timezone is skipped entirely.  Job bodies are
modelled as completed runs (they persist today's marker); the claim under
verification conditions on completed runs. -/
def masterTickGuild (tz : Option String) (st : Settings) (nowSec : Int)
    (localYmd : String) : TickOut :=
  match tz with
  | none => ⟨false, false, false, st⟩
  | some _ =>
    if inLocalWindow nowSec 17 55 120 then
      if shouldRunToday st refreshKey localYmd then
        tickRemindersStage (runRefreshJob st localYmd) true nowSec localYmd
      else
        ⟨false, false, false, st⟩
    else
      tickRemindersStage st false nowSec localYmd

/-! ### Lemmas about the settings store -/

theorem find?_map_update_self (k v : String) :
    ∀ st : Settings, st.any (fun p => p.1 == k) = true →
      (st.map (fun p => if p.1 == k then (k, v) else p)).find? (fun p => p.1 == k)
        = some (k, v) := by
  intro st
  induction st with
  | nil => intro h; cases h
  | cons p t ih =>
    intro h
    by_cases hp : (p.1 == k) = true
    · simp [List.find?, hp]
    · simp only [List.any_cons, Bool.or_eq_true] at h
      rcases h with h | h
      · exact absurd h hp
      · simp only [List.map_cons, List.find?, if_neg hp]
        rw [Bool.not_eq_true] at hp
        simp only [hp]
        exact ih h

theorem find?_append_single_self (k v : String) :
    ∀ st : Settings, st.any (fun p => p.1 == k) = false →
      ((st ++ [(k, v)]).find? (fun p => p.1 == k)) = some (k, v) := by
  intro st
  induction st with
  | nil => intro _; simp [List.find?]
  | cons p t ih =>
    intro h
    simp only [List.any_cons, Bool.or_eq_false_iff] at h
    simp only [List.cons_append, List.find?, h.1]
    exact ih h.2

theorem find?_setSetting_self (st : Settings) (k v : String) :
    (setSetting st k v).find? (fun p => p.1 == k) = some (k, v) := by
  unfold setSetting
  by_cases h : st.any (fun p => p.1 == k) = true
  · rw [if_pos h]
    exact find?_map_update_self k v st h
  · rw [if_neg h]
    exact find?_append_single_self k v st (Bool.not_eq_true _ ▸ h)

theorem find?_map_update_other (k' v k : String) (h : k' ≠ k) :
    ∀ st : Settings, (st.map (fun p => if p.1 == k' then (k', v) else p)).find?
      (fun p => p.1 == k) = st.find? (fun p => p.1 == k) := by
  intro st
  induction st with
  | nil => rfl
  | cons p t ih =>
    by_cases hp : (p.1 == k') = true
    · have hpk : (p.1 == k) = false := by
        have hpe : p.1 = k' := beq_iff_eq.mp hp
        simp [hpe, h]
      have hkk : ((k', v).1 == k) = false := by simp [h]
      simp only [List.map_cons, List.find?, if_pos hp, hkk, hpk]
      exact ih
    · simp only [List.map_cons, List.find?, if_neg hp]
      cases hpk : (p.1 == k) with
      | true => rfl
      | false => exact ih

theorem find?_append_single_other (k' v k : String) (h : k' ≠ k) :
    ∀ st : Settings, ((st ++ [(k', v)]).find? (fun p => p.1 == k))
      = st.find? (fun p => p.1 == k) := by
  intro st
  induction st with
  | nil =>
    have hk : (k' == k) = false := by simp [h]
    simp [List.find?, hk]
  | cons p t ih =>
    simp only [List.cons_append, List.find?]
    cases hpk : (p.1 == k) with
    | true => rfl
    | false => exact ih

theorem getSetting_setSetting_self (st : Settings) (k v : String) :
    getSetting (setSetting st k v) k
      = (if pyStrip v = "" then none else some (pyStrip v)) := by
  unfold getSetting
  rw [find?_setSetting_self]

theorem getSetting_setSetting_other (st : Settings) (k' v k : String) (h : k' ≠ k) :
    getSetting (setSetting st k' v) k = getSetting st k := by
  unfold getSetting setSetting
  by_cases ha : st.any (fun p => p.1 == k') = true
  · rw [if_pos ha, find?_map_update_other k' v k h]
  · rw [if_neg ha, find?_append_single_other k' v k h]

theorem shouldRunToday_set_self (st : Settings) (k ymd : String)
    (h1 : pyStrip ymd = ymd) (h2 : ymd ≠ "") :
    shouldRunToday (setSetting st k ymd) k ymd = false := by
  unfold shouldRunToday
  rw [getSetting_setSetting_self, h1, if_neg h2]
  simp [Option.getD, h1]

theorem shouldRunToday_set_other (st : Settings) (k' v k ymd : String) (h : k' ≠ k) :
    shouldRunToday (setSetting st k' v) k ymd = shouldRunToday st k ymd := by
  unfold shouldRunToday
  rw [getSetting_setSetting_other st k' v k h]

/-! ### Lemmas about the tick stages -/

theorem keys_distinct_rm : refreshKey ≠ remindersKey := by decide
theorem keys_distinct_rw : refreshKey ≠ wishlistKey := by decide
theorem keys_distinct_mw : remindersKey ≠ wishlistKey := by decide

theorem ranRefresh_wishlistStage (st : Settings) (r m : Bool) (now : Int) (ymd : String) :
    (tickWishlistStage st r m now ymd).ranRefresh = r := by
  unfold tickWishlistStage
  split <;> [skip; rfl]
  split <;> rfl

theorem ranReminders_wishlistStage (st : Settings) (r m : Bool) (now : Int) (ymd : String) :
    (tickWishlistStage st r m now ymd).ranReminders = m := by
  unfold tickWishlistStage
  split <;> [skip; rfl]
  split <;> rfl

theorem ranRefresh_remindersStage (st : Settings) (r : Bool) (now : Int) (ymd : String) :
    (tickRemindersStage st r now ymd).ranRefresh = r := by
  unfold tickRemindersStage
  split
  · split
    · rw [ranRefresh_wishlistStage]
    · rfl
  · rw [ranRefresh_wishlistStage]

theorem shouldRun_wishlistStage_st (st : Settings) (r m : Bool) (now : Int)
    (key ymd : String) (h : key ≠ wishlistKey) :
    shouldRunToday (tickWishlistStage st r m now ymd).st key ymd
      = shouldRunToday st key ymd := by
  unfold tickWishlistStage
  split <;> [skip; rfl]
  split
  · show shouldRunToday (runWishlistJob st ymd) key ymd = _
    unfold runWishlistJob
    exact shouldRunToday_set_other st wishlistKey ymd key ymd (Ne.symm h)
  · rfl

theorem shouldRun_remindersStage_st (st : Settings) (r : Bool) (now : Int)
    (key ymd : String) (hm : key ≠ remindersKey) (hw : key ≠ wishlistKey) :
    shouldRunToday (tickRemindersStage st r now ymd).st key ymd
      = shouldRunToday st key ymd := by
  unfold tickRemindersStage
  split
  · split
    · rw [shouldRun_wishlistStage_st _ _ _ _ _ _ hw]
      show shouldRunToday (runRemindersJob st ymd) key ymd = _
      unfold runRemindersJob
      exact shouldRunToday_set_other st remindersKey ymd key ymd (Ne.symm hm)
    · rfl
  · rw [shouldRun_wishlistStage_st _ _ _ _ _ _ hw]

theorem remStage_marker (st : Settings) (r : Bool) (now : Int) (ymd : String)
    (h1 : pyStrip ymd = ymd) (h2 : ymd ≠ "") :
    (tickRemindersStage st r now ymd).ranReminders = true →
      shouldRunToday (tickRemindersStage st r now ymd).st remindersKey ymd = false := by
  unfold tickRemindersStage
  split
  · split
    · intro _
      rw [shouldRun_wishlistStage_st _ _ _ _ _ _ keys_distinct_mw]
      exact shouldRunToday_set_self st remindersKey ymd h1 h2
    · intro ho; cases ho
  · intro ho
    rw [ranReminders_wishlistStage] at ho
    cases ho

theorem remStage_skip (st : Settings) (r : Bool) (now : Int) (ymd : String)
    (hs : shouldRunToday st remindersKey ymd = false) :
    (tickRemindersStage st r now ymd).ranReminders = false := by
  unfold tickRemindersStage
  split
  · simp [hs]
  · rw [ranReminders_wishlistStage]

theorem wishStage_marker (st : Settings) (r m : Bool) (now : Int) (ymd : String)
    (h1 : pyStrip ymd = ymd) (h2 : ymd ≠ "") :
    (tickWishlistStage st r m now ymd).ranWishlist = true →
      shouldRunToday (tickWishlistStage st r m now ymd).st wishlistKey ymd = false := by
  unfold tickWishlistStage
  split
  · split
    · intro _
      exact shouldRunToday_set_self st wishlistKey ymd h1 h2
    · intro ho; cases ho
  · intro ho; cases ho

theorem wishStage_skip (st : Settings) (r m : Bool) (now : Int) (ymd : String)
    (hs : shouldRunToday st wishlistKey ymd = false) :
    (tickWishlistStage st r m now ymd).ranWishlist = false := by
  unfold tickWishlistStage
  split
  · simp [hs]
  · rfl

theorem remStage_wish_marker (st : Settings) (r : Bool) (now : Int) (ymd : String)
    (h1 : pyStrip ymd = ymd) (h2 : ymd ≠ "") :
    (tickRemindersStage st r now ymd).ranWishlist = true →
      shouldRunToday (tickRemindersStage st r now ymd).st wishlistKey ymd = false := by
  unfold tickRemindersStage
  split
  · split
    · exact wishStage_marker _ _ _ _ _ h1 h2
    · intro ho; cases ho
  · exact wishStage_marker _ _ _ _ _ h1 h2

theorem remStage_wish_skip (st : Settings) (r : Bool) (now : Int) (ymd : String)
    (hs : shouldRunToday st wishlistKey ymd = false) :
    (tickRemindersStage st r now ymd).ranWishlist = false := by
  unfold tickRemindersStage
  split
  · split
    · apply wishStage_skip
      show shouldRunToday (setSetting st remindersKey ymd) wishlistKey ymd = false
      rw [shouldRunToday_set_other st remindersKey ymd wishlistKey ymd keys_distinct_mw]
      exact hs
    · rfl
  · exact wishStage_skip _ _ _ _ _ hs

theorem tick_refresh_marker (tz : Option String) (st : Settings) (now : Int)
    (ymd : String) (h1 : pyStrip ymd = ymd) (h2 : ymd ≠ "") :
    (masterTickGuild tz st now ymd).ranRefresh = true →
      shouldRunToday (masterTickGuild tz st now ymd).st refreshKey ymd = false := by
  cases tz with
  | none => intro ho; cases ho
  | some t =>
    simp only [masterTickGuild]
    split
    · split
      · intro _
        rw [shouldRun_remindersStage_st _ _ _ _ _ keys_distinct_rm keys_distinct_rw]
        exact shouldRunToday_set_self st refreshKey ymd h1 h2
      · intro ho; cases ho
    · intro ho
      rw [ranRefresh_remindersStage] at ho
      cases ho

theorem tick_refresh_skip (tz : Option String) (st : Settings) (now : Int)
    (ymd : String) (hs : shouldRunToday st refreshKey ymd = false) :
    (masterTickGuild tz st now ymd).ranRefresh = false := by
  cases tz with
  | none => rfl
  | some t =>
    simp only [masterTickGuild]
    split
    · simp [hs]
    · rw [ranRefresh_remindersStage]

theorem tick_reminders_marker (tz : Option String) (st : Settings) (now : Int)
    (ymd : String) (h1 : pyStrip ymd = ymd) (h2 : ymd ≠ "") :
    (masterTickGuild tz st now ymd).ranReminders = true →
      shouldRunToday (masterTickGuild tz st now ymd).st remindersKey ymd = false := by
  cases tz with
  | none => intro ho; cases ho
  | some t =>
    simp only [masterTickGuild]
    split
    · split
      · exact remStage_marker _ _ _ _ h1 h2
      · intro ho; cases ho
    · exact remStage_marker _ _ _ _ h1 h2

theorem tick_reminders_skip (tz : Option String) (st : Settings) (now : Int)
    (ymd : String) (hs : shouldRunToday st remindersKey ymd = false) :
    (masterTickGuild tz st now ymd).ranReminders = false := by
  cases tz with
  | none => rfl
  | some t =>
    simp only [masterTickGuild]
    split
    · split
      · apply remStage_skip
        show shouldRunToday (setSetting st refreshKey ymd) remindersKey ymd = false
        rw [shouldRunToday_set_other st refreshKey ymd remindersKey ymd keys_distinct_rm]
        exact hs
      · rfl
    · exact remStage_skip _ _ _ _ hs

theorem tick_wishlist_marker (tz : Option String) (st : Settings) (now : Int)
    (ymd : String) (h1 : pyStrip ymd = ymd) (h2 : ymd ≠ "") :
    (masterTickGuild tz st now ymd).ranWishlist = true →
      shouldRunToday (masterTickGuild tz st now ymd).st wishlistKey ymd = false := by
  cases tz with
  | none => intro ho; cases ho
  | some t =>
    simp only [masterTickGuild]
    split
    · split
      · exact remStage_wish_marker _ _ _ _ h1 h2
      · intro ho; cases ho
    · exact remStage_wish_marker _ _ _ _ h1 h2

theorem tick_wishlist_skip (tz : Option String) (st : Settings) (now : Int)
    (ymd : String) (hs : shouldRunToday st wishlistKey ymd = false) :
    (masterTickGuild tz st now ymd).ranWishlist = false := by
  cases tz with
  | none => rfl
  | some t =>
    simp only [masterTickGuild]
    split
    · split
      · apply remStage_wish_skip
        show shouldRunToday (setSetting st refreshKey ymd) wishlistKey ymd = false
        rw [shouldRunToday_set_other st refreshKey ymd wishlistKey ymd keys_distinct_rw]
        exact hs
      · rfl
    · exact remStage_wish_skip _ _ _ _ hs

/-- C2: for every workspace and each of the three scheduler jobs (refresh,
remind, digest), evaluating the master tick twice on the same local calendar
day runs each job body at most once: the first completed run persists
today's local date string as the job's last-run marker, and the second
evaluation skips any job whose marker equals today's date string.  The
hypotheses record that `localYmd` is a `date().isoformat()` string, hence
nonblank and free of surrounding whitespace. -/
theorem scheduler_double_tick_runs_each_job_at_most_once
    (tz : Option String) (st : Settings) (now1 now2 : Int) (ymd : String)
    (h1 : pyStrip ymd = ymd) (h2 : ymd ≠ "") :
    ((masterTickGuild tz st now1 ymd).ranRefresh = true →
      (masterTickGuild tz (masterTickGuild tz st now1 ymd).st now2 ymd).ranRefresh
        = false) ∧
    ((masterTickGuild tz st now1 ymd).ranReminders = true →
      (masterTickGuild tz (masterTickGuild tz st now1 ymd).st now2 ymd).ranReminders
        = false) ∧
    ((masterTickGuild tz st now1 ymd).ranWishlist = true →
      (masterTickGuild tz (masterTickGuild tz st now1 ymd).st now2 ymd).ranWishlist
        = false) := by
  refine ⟨fun ho => ?_, fun ho => ?_, fun ho => ?_⟩
  · exact tick_refresh_skip _ _ _ _ (tick_refresh_marker tz st now1 ymd h1 h2 ho)
  · exact tick_reminders_skip _ _ _ _ (tick_reminders_marker tz st now1 ymd h1 h2 ho)
  · exact tick_wishlist_skip _ _ _ _ (tick_wishlist_marker tz st now1 ymd h1 h2 ho)

/-- Witness for C2 at a concrete state: empty settings, timezone
America/Denver, both ticks inside the 17:55 refresh window on 2026-02-03
(the first tick runs the refresh job, the second is skipped). -/
theorem scheduler_double_tick_witness :
    (pyStrip "2026-02-03" = "2026-02-03" ∧ "2026-02-03" ≠ "") ∧
    (((masterTickGuild (some "America/Denver") [] 64500 "2026-02-03").ranRefresh = true →
        (masterTickGuild (some "America/Denver")
          (masterTickGuild (some "America/Denver") [] 64500 "2026-02-03").st
          64530 "2026-02-03").ranRefresh = false) ∧
      ((masterTickGuild (some "America/Denver") [] 64500 "2026-02-03").ranReminders = true →
        (masterTickGuild (some "America/Denver")
          (masterTickGuild (some "America/Denver") [] 64500 "2026-02-03").st
          64530 "2026-02-03").ranReminders = false) ∧
      ((masterTickGuild (some "America/Denver") [] 64500 "2026-02-03").ranWishlist = true →
        (masterTickGuild (some "America/Denver")
          (masterTickGuild (some "America/Denver") [] 64500 "2026-02-03").st
          64530 "2026-02-03").ranWishlist = false)) :=
  ⟨⟨by decide, by decide⟩,
    scheduler_double_tick_runs_each_job_at_most_once (some "America/Denver") []
      64500 64530 "2026-02-03" (by decide) (by decide)⟩

/-! ## Reminder ledger (`db/repos/reminders_repo.py`)

The `upcoming_games` table is modelled as a list of rows in insertion
order.  `canonical_utc_iso` (utils/time.py lines 29-38) parses and
re-renders an ISO timestamp; the ledger lemmas hold for every possible
normalizer, so it is passed as a function argument: `none` models a raised
`ValueError` (malformed timestamp), `some none` models the `None` result on
blank input, `some (some s)` the normalized string. -/

structure Reminder where
  app_id : Int
  name : String
  release_at_utc : Option String
  release_precision : String
  release_date_text : Option String
  last_checked_at_utc : String
  remind_channel_id : Option Int
  created_by_discord_id : Option String
  created_at_utc : String
  sent_at_utc : Option String
deriving Repr, DecidableEq

abbrev RemindersTable := List Reminder

/-- Channel scope used throughout the repo: `COALESCE(remind_channel_id, 0)`
treats a NULL channel id and channel id 0 as the same scope
(reminders_repo.py lines 16-18). -/
def chanKey (c : Option Int) : Int :=
  match c with
  | none => 0
  | some v => v

/-- Embedding of `reminder_exists` (reminders_repo.py lines 12-31): true iff
an unsent row exists for this `app_id` in this channel scope. -/
def reminderExists (db : RemindersTable) (appId : Int) (ch : Option Int) : Bool :=
  db.any fun r =>
    r.app_id == appId && r.sent_at_utc.isNone
      && chanKey r.remind_channel_id == chanKey ch

/-- Sentinel stored when the release instant is unknown
(reminders_repo.py line 86). -/
def farFutureSentinel : String := "9999-12-31T00:00:00+00:00"

/-- Embedding of `add_reminder_if_missing` (reminders_repo.py lines 63-120):
dedup check, sentinel substitution, normalization of the given release
instant, then insert.  Result `none` models `canonical_utc_iso` raising on a
malformed timestamp (the row is not inserted); otherwise the flag is the
function's return value (`true` iff a row was inserted). -/
def addReminderIfMissing (canon : String → Option (Option String))
    (db : RemindersTable) (appId : Int) (nm : String)
    (releaseAtUtc releaseDateText releasePrecision createdBy : Option String)
    (ch : Option Int) (nowIso : String) : Option (Bool × RemindersTable) :=
  if reminderExists db appId ch then
    some (false, db)
  else
    match (match releaseAtUtc with
           | none => some (some farFutureSentinel)
           | some s => canon s) with
    | none => none
    | some rel =>
      some (true, db ++
        [⟨appId, nm, rel, releasePrecision.getD "unknown", releaseDateText,
          nowIso, ch, createdBy, nowIso, none⟩])

/-- Embedding of `remove_reminder` (reminders_repo.py lines 123-138): deletes
every unsent row for `(app_id, channel scope)`; returns whether any row was
deleted. -/
def removeReminder (db : RemindersTable) (appId : Int) (ch : Option Int) :
    Bool × RemindersTable :=
  let kept := db.filter fun r =>
    !(r.app_id == appId && r.sent_at_utc.isNone
        && chanKey r.remind_channel_id == chanKey ch)
  (decide (kept.length < db.length), kept)

/-- Embedding of `purge_expired_reminders` (reminders_repo.py lines 254-275):
deletes every sent row, and every row with a non-null day-precision release
instant lexicographically below the cutoff; returns the kept rows and the
number of rows removed.  `cutoffIso` is `(utc_now() - 36h).isoformat()`;
canonical ISO-8601 UTC strings compare lexicographically exactly as
instants, so the SQL string comparison is kept as a string comparison. -/
def purgeExpiredReminders (cutoffIso : String) (db : RemindersTable) :
    RemindersTable × Nat :=
  let doomed : Reminder → Bool := fun r =>
    r.sent_at_utc.isSome ||
      (match r.release_at_utc with
       | none => false
       | some rel => r.release_precision == "day" && decide (rel < cutoffIso))
  (db.filter (fun r => !doomed r), db.countP doomed)

/-- A call sequence against the reminder ledger, for the C1 invariant: each
element is an `add_reminder_if_missing` or `remove_reminder` call with its
arguments (the add call carries the wall-clock instant of the call). -/
inductive RemOp where
  | add (appId : Int) (nm : String)
      (releaseAtUtc releaseDateText releasePrecision createdBy : Option String)
      (ch : Option Int) (nowIso : String)
  | remove (appId : Int) (ch : Option Int)

/-- State transition of one ledger call.  An adding call on which
`canonical_utc_iso` raises leaves the table unchanged (the exception
propagates before the INSERT). -/
def applyRemOp (canon : String → Option (Option String))
    (db : RemindersTable) : RemOp → RemindersTable
  | .add a nm rel txt prec creator ch now =>
    match addReminderIfMissing canon db a nm rel txt prec creator ch now with
    | none => db
    | some (_, db2) => db2
  | .remove a ch => (removeReminder db a ch).2

/-- Number of pending (unsent) rows for a `(catalog item, channel scope)`
pair. -/
def pendingForPair (db : RemindersTable) (appId chanK : Int) : Nat :=
  db.countP fun r =>
    r.app_id == appId && r.sent_at_utc.isNone
      && chanKey r.remind_channel_id == chanK

/-! ### Lemmas for the at-most-one-pending invariant (C1) -/

theorem applyRemOp_add_eq (canon : String → Option (Option String))
    (db : RemindersTable) (a : Int) (nm : String)
    (rel txt prec creator : Option String) (ch : Option Int) (now : String) :
    applyRemOp canon db (.add a nm rel txt prec creator ch now)
      = if reminderExists db a ch then db
        else
          match (match rel with
                 | none => some (some farFutureSentinel)
                 | some s => canon s) with
          | none => db
          | some relv =>
            db ++ [⟨a, nm, relv, prec.getD "unknown", txt, now, ch, creator,
              now, none⟩] := by
  simp only [applyRemOp, addReminderIfMissing]
  by_cases he : reminderExists db a ch
  · simp [he]
  · rw [if_neg he, if_neg he]
    cases hm : (match rel with
                | none => some (some farFutureSentinel)
                | some s => canon s) with
    | none => rfl
    | some relv => rfl

theorem pendingForPair_append_one (db : RemindersTable) (r : Reminder)
    (appId chanK : Int) :
    pendingForPair (db ++ [r]) appId chanK
      = pendingForPair db appId chanK
        + (if r.app_id == appId && r.sent_at_utc.isNone
              && chanKey r.remind_channel_id == chanK then 1 else 0) := by
  simp [pendingForPair, List.countP_append, List.countP_cons]

theorem pendingForPair_eq_zero_of_not_exists (db : RemindersTable) (a : Int)
    (ch : Option Int) (he : reminderExists db a ch = false) :
    pendingForPair db a (chanKey ch) = 0 := by
  unfold reminderExists at he
  unfold pendingForPair
  rw [List.countP_eq_zero]
  intro r hr
  rw [List.any_eq_false] at he
  exact he r hr

theorem pendingForPair_applyRemOp_le (canon : String → Option (Option String))
    (db : RemindersTable) (op : RemOp) (appId chanK : Int)
    (h : pendingForPair db appId chanK ≤ 1) :
    pendingForPair (applyRemOp canon db op) appId chanK ≤ 1 := by
  cases op with
  | remove a ch =>
    have hle : pendingForPair (applyRemOp canon db (.remove a ch)) appId chanK
        ≤ pendingForPair db appId chanK := by
      unfold applyRemOp removeReminder pendingForPair
      exact List.Sublist.countP_le _ (List.filter_sublist db)
    exact le_trans hle h
  | add a nm rel txt prec creator ch now =>
    rw [applyRemOp_add_eq]
    by_cases he : reminderExists db a ch = true
    · rw [if_pos he]; exact h
    · have he' : reminderExists db a ch = false := by simpa using he
      rw [if_neg (by simp [he'])]
      cases hm : (match rel with
                  | none => some (some farFutureSentinel)
                  | some s => canon s) with
      | none => exact h
      | some relv =>
        rw [pendingForPair_append_one]
        show pendingForPair db appId chanK
            + (if a == appId && true && (chanKey ch == chanK) then 1 else 0) ≤ 1
        by_cases ha : a = appId
        · by_cases hc : chanKey ch = chanK
          · subst ha; subst hc
            rw [pendingForPair_eq_zero_of_not_exists db a ch he']
            simp
          · have hcf : (chanKey ch == chanK) = false := by simp [hc]
            simp only [hcf, Bool.and_false, if_false]
            simpa using h
        · have haf : (a == appId) = false := by simp [ha]
          simp only [haf, Bool.false_and, if_false]
          simpa using h

/-- C1: starting from an empty ledger, after any sequence of
`add_reminder_if_missing` and `remove_reminder` calls, at most one pending
(unsent) reminder row exists for each (catalog item, channel scope) pair,
where a NULL channel id and channel id 0 denote the same scope (the scope of
a pair is its `COALESCE`d channel key `chanK`).  The statement holds for
every behaviour of the `canonical_utc_iso` normalizer. -/
theorem reminders_at_most_one_pending_per_pair
    (canon : String → Option (Option String)) (ops : List RemOp)
    (appId chanK : Int) :
    pendingForPair (ops.foldl (applyRemOp canon) []) appId chanK ≤ 1 := by
  have main : ∀ (l : List RemOp) (db : RemindersTable),
      (∀ a k, pendingForPair db a k ≤ 1) →
      ∀ a k, pendingForPair (l.foldl (applyRemOp canon) db) a k ≤ 1 := by
    intro l
    induction l with
    | nil => intro db h; exact h
    | cons op rest ih =>
      intro db h
      exact ih _ (fun a k => pendingForPair_applyRemOp_le canon db op a k (h a k))
  refine main ops [] (fun a k => ?_) appId chanK
  simp [pendingForPair]

/-! ### Characterization of `purge_expired_reminders` (C7) -/

/-- C7: `purge_expired_reminders` deletes exactly the sent rows plus the
pending day-precision rows whose non-null release anchor lies strictly
before the 36-hour cutoff; it keeps every pending row whose precision is
not "day" and every pending row whose anchor is at or after the cutoff (or
null), and the returned count is the number of rows removed. -/
theorem purge_expired_removes_exactly_sent_and_stale_day
    (cutoffIso : String) (db : RemindersTable) :
    (∀ r ∈ db, r.sent_at_utc.isSome →
      r ∉ (purgeExpiredReminders cutoffIso db).1) ∧
    (∀ r ∈ db, ∀ relv, r.sent_at_utc = none → r.release_at_utc = some relv →
      r.release_precision = "day" → relv < cutoffIso →
      r ∉ (purgeExpiredReminders cutoffIso db).1) ∧
    (∀ r ∈ db, r.sent_at_utc = none → r.release_precision ≠ "day" →
      r ∈ (purgeExpiredReminders cutoffIso db).1) ∧
    (∀ r ∈ db, r.sent_at_utc = none →
      (∀ relv, r.release_at_utc = some relv → ¬ relv < cutoffIso) →
      r ∈ (purgeExpiredReminders cutoffIso db).1) ∧
    (purgeExpiredReminders cutoffIso db).1.length
      + (purgeExpiredReminders cutoffIso db).2 = db.length := by
  refine ⟨?_, ?_, ?_, ?_, ?_⟩
  · intro r hr hs hmem
    simp only [purgeExpiredReminders] at hmem
    rw [List.mem_filter] at hmem
    simp only [Bool.not_eq_true', Bool.or_eq_false_iff] at hmem
    rw [hmem.2.1] at hs
    cases hs
  · intro r hr relv hs hrel hprec hlt hmem
    simp only [purgeExpiredReminders] at hmem
    rw [List.mem_filter] at hmem
    simp only [Bool.not_eq_true', Bool.or_eq_false_iff] at hmem
    have := hmem.2.2
    rw [hrel] at this
    simp only [hprec, hlt] at this
    simp at this
  · intro r hr hs hprec
    simp only [purgeExpiredReminders]
    rw [List.mem_filter]
    refine ⟨hr, ?_⟩
    simp only [Bool.not_eq_true', Bool.or_eq_false_iff]
    refine ⟨by rw [hs]; rfl, ?_⟩
    cases hrel : r.release_at_utc with
    | none => rfl
    | some relv =>
      have : (r.release_precision == "day") = false := by
        simp [hprec]
      simp [this]
  · intro r hr hs hge
    simp only [purgeExpiredReminders]
    rw [List.mem_filter]
    refine ⟨hr, ?_⟩
    simp only [Bool.not_eq_true', Bool.or_eq_false_iff]
    refine ⟨by rw [hs]; rfl, ?_⟩
    cases hrel : r.release_at_utc with
    | none => rfl
    | some relv =>
      have : ¬ relv < cutoffIso := hge relv hrel
      simp [this]
  · simp only [purgeExpiredReminders]
    rw [← List.countP_eq_length_filter]
    have hcount : ∀ (p : Reminder → Bool) (l : List Reminder),
        l.countP (fun r => !p r) + l.countP p = l.length := by
      intro p l
      induction l with
      | nil => rfl
      | cons x t ih =>
        rw [List.countP_cons, List.countP_cons]
        cases hx : p x <;> simp [hx] <;> omega
    exact hcount _ db

/-- Witness for C7 on a two-row ledger: a sent row is removed, a pending
month-precision row with a stale anchor is kept, and the removal count is
one. -/
theorem purge_expired_witness :
    ((⟨620, "A", some "2020-01-01T00:00:00+00:00", "day", none, "t",
        none, none, "t", some "2020-01-02T00:00:00+00:00"⟩ : Reminder)
      ∉ (purgeExpiredReminders "2026-01-01T00:00:00+00:00"
          [⟨620, "A", some "2020-01-01T00:00:00+00:00", "day", none, "t",
            none, none, "t", some "2020-01-02T00:00:00+00:00"⟩,
           ⟨900, "B", some "2020-01-01T00:00:00+00:00", "month", none, "t",
            none, none, "t", none⟩]).1) ∧
    ((⟨900, "B", some "2020-01-01T00:00:00+00:00", "month", none, "t",
        none, none, "t", none⟩ : Reminder)
      ∈ (purgeExpiredReminders "2026-01-01T00:00:00+00:00"
          [⟨620, "A", some "2020-01-01T00:00:00+00:00", "day", none, "t",
            none, none, "t", some "2020-01-02T00:00:00+00:00"⟩,
           ⟨900, "B", some "2020-01-01T00:00:00+00:00", "month", none, "t",
            none, none, "t", none⟩]).1) :=
  ⟨(purge_expired_removes_exactly_sent_and_stale_day _ _).1 _ (by decide)
      (by decide),
   (purge_expired_removes_exactly_sent_and_stale_day _ _).2.2.1 _ (by decide)
      (by decide) (by decide)⟩

/-! ## Access ledger (`db/repos/approval_repo.py`) and approval gate
(`commands/router.py`)

The `approved_users` table has `discord_id TEXT PRIMARY KEY`; it is
modelled as a list of rows (primary-key uniqueness appears as a `Nodup`
hypothesis where a theorem needs it).  The repo stores second-resolution
ISO timestamps and only ever parses and compares them as instants
(`parse_iso`, `utc_now`, `timedelta`), so instants are modelled as integer
seconds since the epoch. -/

structure ApprovedUser where
  discord_id : String
  approved_at_utc : Int
  approved_by_discord_id : String
  note : Option String
  revoked_at_utc : Option Int
  revoked_by_discord_id : Option String
  last_plex_use_at_utc : Option Int
deriving Repr, DecidableEq

abbrev ApprovedUsersTable := List ApprovedUser

/-- Embedding of `INACTIVITY_DAYS` (settings.py line 36). -/
def INACTIVITY_DAYS : Int := 14

/-- Embedding of `revoke_user` (approval_repo.py lines 63-81): sets the
revocation fields on every not-yet-revoked row for this id (no-op when no
such row exists); `COALESCE(?, note)` keeps the old note when none is
given. -/
def revokeUser (db : ApprovedUsersTable) (discordId revokedBy : String)
    (note : Option String) (now : Int) : ApprovedUsersTable :=
  db.map fun r =>
    if r.discord_id == discordId && r.revoked_at_utc.isNone then
      ⟨r.discord_id, r.approved_at_utc, r.approved_by_discord_id,
        (match note with | none => r.note | some n => some n),
        some now, some revokedBy, r.last_plex_use_at_utc⟩
    else r

/-- Embedding of `approve_user` (approval_repo.py lines 26-60): upsert on
the primary key.  On conflict it refreshes `approved_at_utc`,
`approved_by_discord_id` and `note` and clears both revocation fields, but
does not touch `last_plex_use_at_utc`; a fresh row starts with
`last_plex_use_at_utc = NULL`. -/
def approveUser (db : ApprovedUsersTable) (discordId approvedBy : String)
    (note : Option String) (now : Int) : ApprovedUsersTable :=
  if db.any (fun r => r.discord_id == discordId) then
    db.map fun r =>
      if r.discord_id == discordId then
        ⟨r.discord_id, now, approvedBy, note, none, none, r.last_plex_use_at_utc⟩
      else r
  else
    db ++ [⟨discordId, now, approvedBy, note, none, none, none⟩]

/-- Embedding of Python `s.isdigit() and int(s)` for ASCII digit strings:
`some` of the decimal value when the string is nonempty and all digits,
otherwise `none`.  (Defined over the character list so the kernel can
evaluate it.) -/
def pyDigits? (s : String) : Option Nat :=
  if s.data ≠ [] ∧ s.data.all (fun c => '0' ≤ c && c ≤ '9') then
    some (s.data.foldl (fun n c => n * 10 + (c.toNat - 48)) 0)
  else none

/-- Embedding of the owner test inside `_is_still_active_approved`
(router.py line 69): `discord_id.isdigit() and int(discord_id) in
owner_ids()`. -/
def ownerCheckStr (owners : List Nat) (discordId : String) : Bool :=
  match pyDigits? discordId with
  | some n => owners.contains n
  | none => false

/-- Embedding of `_is_still_active_approved` (router.py lines 49-80): look
up the active (unrevoked) row; when none exists the actor is not approved.
Otherwise inactivity is measured from `last_plex_use_at_utc`, falling back
to `approved_at_utc`; strictly more than `inactivityDays` days of
inactivity auto-revokes (persisting revoker "system") and reports the actor
as not approved — unless the id is an owner id, which is never
auto-revoked.  Returns the decision and the resulting ledger. -/
def isStillActiveApproved (owners : List Nat) (now : Int)
    (db : ApprovedUsersTable) (discordId : String) (inactivityDays : Int) :
    Bool × ApprovedUsersTable :=
  match db.find? (fun r => r.discord_id == discordId && r.revoked_at_utc.isNone) with
  | none => (false, db)
  | some row =>
    let lastUsed := row.last_plex_use_at_utc.getD row.approved_at_utc
    if now - lastUsed > inactivityDays * 86400 then
      if ownerCheckStr owners discordId then
        (true, db)
      else
        (false, revokeUser db discordId "system"
          (some ("Auto-revoked: inactive > " ++ toString inactivityDays ++ " days"))
          now)
    else
      (true, db)

/-- Context of an inbound command (router.py lines 31-37), without the HTTP
session handle. -/
structure CommandCtx where
  guild_id : Nat
  channel_id : Nat
  author_id : Nat
  content : String
deriving Repr, DecidableEq

/-- Embedding of `_require_approved_sync` (router.py lines 83-99): owners
(admins) are allowed without consulting the ledger; otherwise the lazy
inactivity check runs and a denied actor yields the `__ACCESS_REQUEST__`
signal string.  Returns the optional deny signal and the resulting
ledger. -/
def requireApprovedSync (owners : List Nat) (now : Int)
    (db : ApprovedUsersTable) (ctx : CommandCtx) :
    Option String × ApprovedUsersTable :=
  if owners.contains ctx.author_id then
    (none, db)
  else
    let res := isStillActiveApproved owners now db (toString ctx.author_id)
      INACTIVITY_DAYS
    if res.1 then
      (none, res.2)
    else
      (some ("__ACCESS_REQUEST__:" ++ toString ctx.guild_id ++ ":"
        ++ toString ctx.channel_id ++ ":" ++ toString ctx.author_id ++ ":"
        ++ pyStrip ctx.content), res.2)

/-! ### Lemmas about revocation and the lazy inactivity gate -/

theorem revokeUser_all_id_rows_revoked (db : ApprovedUsersTable)
    (rid revoker : String) (note : Option String) (now : Int) :
    ∀ r ∈ revokeUser db rid revoker note now,
      r.discord_id = rid → r.revoked_at_utc.isSome = true := by
  intro r hr
  unfold revokeUser at hr
  rw [List.mem_map] at hr
  obtain ⟨x, hx, rfl⟩ := hr
  by_cases hc : (x.discord_id == rid && x.revoked_at_utc.isNone) = true
  · rw [if_pos hc]
    intro _
    rfl
  · rw [if_neg hc]
    intro hid
    cases hrev : x.revoked_at_utc with
    | some v => rfl
    | none =>
      exfalso
      exact hc (by simp [hid, hrev])

theorem revokeUser_marks_row (db : ApprovedUsersTable) (rid revoker : String)
    (note : Option String) (now : Int) (row : ApprovedUser)
    (hmem : row ∈ db) (hid : row.discord_id = rid)
    (hrev : row.revoked_at_utc = none) :
    ∃ r ∈ revokeUser db rid revoker note now,
      r.discord_id = rid ∧ r.revoked_at_utc = some now
        ∧ r.revoked_by_discord_id = some revoker := by
  unfold revokeUser
  refine ⟨_, List.mem_map_of_mem _ hmem, ?_⟩
  have hc : (row.discord_id == rid && row.revoked_at_utc.isNone) = true := by
    simp [hid, hrev]
  rw [if_pos hc]
  exact ⟨hid, rfl, rfl⟩

theorem gate_eval_stale_core (owners : List Nat) (now : Int)
    (db : ApprovedUsersTable) (discordId : String) (days : Int)
    (row : ApprovedUser)
    (hfind : db.find?
        (fun r => r.discord_id == discordId && r.revoked_at_utc.isNone)
      = some row)
    (hstale : now - row.last_plex_use_at_utc.getD row.approved_at_utc
      > days * 86400)
    (howner : ownerCheckStr owners discordId = false) :
    isStillActiveApproved owners now db discordId days
      = (false, revokeUser db discordId "system"
          (some ("Auto-revoked: inactive > " ++ toString days ++ " days"))
          now) := by
  simp only [isStillActiveApproved, hfind]
  rw [if_pos hstale, if_neg (by simp [howner])]

/-- C3 counterexample: at exactly `INACTIVITY_DAYS` (14 days) of
inactivity the gate does NOT revoke — the source compares with a strict
`>` (router.py line 67), so a non-owner actor approved at instant 0, never
used, evaluated at instant 14·86400 is reported still approved and the
ledger is unchanged. -/
theorem approval_inactivity_boundary_counterexample :
    isStillActiveApproved [] (14 * 86400)
        [⟨"42", 0, "1", none, none, none, none⟩] "42" INACTIVITY_DAYS
      = (true, [⟨"42", 0, "1", none, none, none, none⟩]) := by
  decide

/-- C3 (amended): for every non-owner actor with an active (unrevoked)
record whose inactivity — measured from `last_plex_use_at_utc`, or from
`approved_at_utc` when absent — is STRICTLY MORE than `days` days at the
next gate evaluation, that evaluation reports the actor as not approved,
and persists a revocation: every unrevoked row for the actor becomes
revoked, with revoker id "system" and revocation instant `now`. -/
theorem approval_gate_auto_revokes_strictly_inactive
    (owners : List Nat) (now : Int) (db : ApprovedUsersTable)
    (discordId : String) (days : Int) (row : ApprovedUser)
    (hfind : db.find?
        (fun r => r.discord_id == discordId && r.revoked_at_utc.isNone)
      = some row)
    (hstale : now - row.last_plex_use_at_utc.getD row.approved_at_utc
      > days * 86400)
    (howner : ownerCheckStr owners discordId = false) :
    (isStillActiveApproved owners now db discordId days).1 = false ∧
    (∀ r ∈ (isStillActiveApproved owners now db discordId days).2,
        r.discord_id = discordId → r.revoked_at_utc.isSome = true) ∧
    (∃ r ∈ (isStillActiveApproved owners now db discordId days).2,
        r.discord_id = discordId ∧ r.revoked_at_utc = some now
          ∧ r.revoked_by_discord_id = some "system") := by
  have hres := gate_eval_stale_core owners now db discordId days row hfind hstale howner
  have h1 : (isStillActiveApproved owners now db discordId days).1 = false := by
    rw [hres]
  have h2 : (isStillActiveApproved owners now db discordId days).2
      = revokeUser db discordId "system"
          (some ("Auto-revoked: inactive > " ++ toString days ++ " days")) now := by
    rw [hres]
  have hprops := List.find?_some hfind
  have hmem := List.mem_of_find?_eq_some hfind
  rw [Bool.and_eq_true] at hprops
  have hid : row.discord_id = discordId := beq_iff_eq.mp hprops.1
  have hrev : row.revoked_at_utc = none :=
    Option.isNone_iff_eq_none.mp hprops.2
  rw [h1, h2]
  exact ⟨rfl, revokeUser_all_id_rows_revoked db discordId "system" _ now,
    revokeUser_marks_row db discordId "system" _ now row hmem hid hrev⟩

/-- Witness for the amended C3: one actor approved at instant 0, never
used, evaluated one second past the 14-day mark; the gate denies and the
row is revoked by "system". -/
theorem approval_gate_auto_revokes_witness :
    (isStillActiveApproved [] (14 * 86400 + 1)
        [⟨"42", 0, "1", none, none, none, none⟩] "42" 14).1 = false ∧
    (∀ r ∈ (isStillActiveApproved [] (14 * 86400 + 1)
        [⟨"42", 0, "1", none, none, none, none⟩] "42" 14).2,
        r.discord_id = "42" → r.revoked_at_utc.isSome = true) ∧
    (∃ r ∈ (isStillActiveApproved [] (14 * 86400 + 1)
        [⟨"42", 0, "1", none, none, none, none⟩] "42" 14).2,
        r.discord_id = "42" ∧ r.revoked_at_utc = some (14 * 86400 + 1)
          ∧ r.revoked_by_discord_id = some "system") :=
  approval_gate_auto_revokes_strictly_inactive [] (14 * 86400 + 1)
    [⟨"42", 0, "1", none, none, none, none⟩] "42" 14
    ⟨"42", 0, "1", none, none, none, none⟩
    (by decide) (by decide) (by decide)

/-- C4: an owner (admin) actor always passes the approval gate — the gate
answers allow and leaves the ledger untouched, whatever its state — and no
gate evaluation of an owner-id actor ever persists an automatic revocation
(the ledger returned by the lazy inactivity check is unchanged for owner
ids, however stale their last use). -/
theorem approval_gate_owner_always_allowed
    (owners : List Nat) (now : Int) (db : ApprovedUsersTable)
    (ctx : CommandCtx) (hown : owners.contains ctx.author_id = true) :
    requireApprovedSync owners now db ctx = (none, db) ∧
    (∀ (discordId : String) (days : Int),
      ownerCheckStr owners discordId = true →
      (isStillActiveApproved owners now db discordId days).2 = db) := by
  constructor
  · unfold requireApprovedSync
    rw [if_pos hown]
  · intro discordId days hid
    unfold isStillActiveApproved
    cases hfind : db.find?
        (fun r => r.discord_id == discordId && r.revoked_at_utc.isNone) with
    | none => rfl
    | some row =>
      simp only
      split
      · rfl
      · rfl

/-- Witness for C4: the owner id 5 with a revoked and stale ledger row is
still allowed and nothing in the ledger changes. -/
theorem approval_gate_owner_witness :
    ([5].contains (⟨1, 2, 5, "*plexmovie 603"⟩ : CommandCtx).author_id = true) ∧
    (requireApprovedSync [5] 99999999
        [⟨"5", 0, "1", none, some 3, some "1", none⟩]
        ⟨1, 2, 5, "*plexmovie 603"⟩
      = (none, [⟨"5", 0, "1", none, some 3, some "1", none⟩]) ∧
    (∀ (discordId : String) (days : Int),
      ownerCheckStr [5] discordId = true →
      (isStillActiveApproved [5] 99999999
          [⟨"5", 0, "1", none, some 3, some "1", none⟩] discordId days).2
        = [⟨"5", 0, "1", none, some 3, some "1", none⟩])) :=
  ⟨by decide,
    approval_gate_owner_always_allowed [5] 99999999
      [⟨"5", 0, "1", none, some 3, some "1", none⟩]
      ⟨1, 2, 5, "*plexmovie 603"⟩ (by decide)⟩

theorem find?_map_approve (rid approvedBy : String) (note : Option String)
    (t : Int) :
    ∀ (db : ApprovedUsersTable), (db.map (fun r => r.discord_id)).Nodup →
      ∀ row ∈ db, row.discord_id = rid →
      ((db.map (fun r =>
          if r.discord_id == rid then
            (⟨r.discord_id, t, approvedBy, note, none, none,
              r.last_plex_use_at_utc⟩ : ApprovedUser)
          else r)).find?
        (fun r => r.discord_id == rid && r.revoked_at_utc.isNone))
        = some ⟨rid, t, approvedBy, note, none, none,
            row.last_plex_use_at_utc⟩ := by
  intro db
  induction db with
  | nil => intro _ row hmem; cases hmem
  | cons x tl ih =>
    intro hnodup row hmem hid
    rw [List.map_cons, List.nodup_cons] at hnodup
    rcases List.mem_cons.mp hmem with heq | hmem2
    · subst heq
      have hb : (row.discord_id == rid) = true := by simp [hid]
      rw [List.map_cons, if_pos hb]
      rw [List.find?_cons_of_pos]
      · rw [hid]
      · simp [hb]
    · have hxid : x.discord_id ≠ rid := by
        intro he
        apply hnodup.1
        rw [he, ← hid]
        exact List.mem_map_of_mem _ hmem2
      have hb : (x.discord_id == rid) = false := by simp [hxid]
      rw [List.map_cons, if_neg (by simp [hb])]
      rw [List.find?_cons_of_neg]
      · exact ih hnodup.2 row hmem2 hid
      · simp [hb]

/-- C10: re-approving an existing actor (`approve_user` upsert) clears both
revocation fields and refreshes `approved_at_utc` while preserving the
stored `last_plex_use_at_utc` unchanged; consequently a non-owner actor
whose preserved last use is more than `INACTIVITY_DAYS` (14) days old is
auto-revoked again, by "system", at the very next gate evaluation —
re-approval does not reset the inactivity clock. -/
theorem reapproval_preserves_last_use_and_next_gate_revokes
    (owners : List Nat) (db : ApprovedUsersTable) (row : ApprovedUser)
    (approvedBy : String) (note : Option String) (tApprove now lastUse : Int)
    (hnodup : (db.map (fun r => r.discord_id)).Nodup)
    (hmem : row ∈ db)
    (hlast : row.last_plex_use_at_utc = some lastUse)
    (hstale : now - lastUse > INACTIVITY_DAYS * 86400)
    (howner : ownerCheckStr owners row.discord_id = false) :
    ((⟨row.discord_id, tApprove, approvedBy, note, none, none, some lastUse⟩ :
        ApprovedUser)
      ∈ approveUser db row.discord_id approvedBy note tApprove) ∧
    (isStillActiveApproved owners now
        (approveUser db row.discord_id approvedBy note tApprove)
        row.discord_id INACTIVITY_DAYS).1 = false ∧
    (∃ r ∈ (isStillActiveApproved owners now
        (approveUser db row.discord_id approvedBy note tApprove)
        row.discord_id INACTIVITY_DAYS).2,
      r.discord_id = row.discord_id ∧ r.revoked_at_utc = some now
        ∧ r.revoked_by_discord_id = some "system") := by
  have hany : db.any (fun r => r.discord_id == row.discord_id) = true :=
    List.any_eq_true.mpr ⟨row, hmem, by simp⟩
  have hdb2 : approveUser db row.discord_id approvedBy note tApprove
      = db.map (fun r =>
          if r.discord_id == row.discord_id then
            (⟨r.discord_id, tApprove, approvedBy, note, none, none,
              r.last_plex_use_at_utc⟩ : ApprovedUser)
          else r) := by
    unfold approveUser
    rw [if_pos hany]
  have hupdmem : (⟨row.discord_id, tApprove, approvedBy, note, none, none,
      some lastUse⟩ : ApprovedUser)
      ∈ approveUser db row.discord_id approvedBy note tApprove := by
    rw [hdb2, List.mem_map]
    refine ⟨row, hmem, ?_⟩
    simp [hlast]
  have hfind2 : (approveUser db row.discord_id approvedBy note tApprove).find?
      (fun r => r.discord_id == row.discord_id && r.revoked_at_utc.isNone)
      = some ⟨row.discord_id, tApprove, approvedBy, note, none, none,
          row.last_plex_use_at_utc⟩ := by
    rw [hdb2]
    exact find?_map_approve row.discord_id approvedBy note tApprove db hnodup
      row hmem rfl
  have hstale2 : now - Option.getD row.last_plex_use_at_utc tApprove
      > INACTIVITY_DAYS * 86400 := by
    rw [hlast]
    simpa using hstale
  have hres := gate_eval_stale_core owners now
    (approveUser db row.discord_id approvedBy note tApprove) row.discord_id
    INACTIVITY_DAYS _ hfind2 hstale2 howner
  have h1 : (isStillActiveApproved owners now
      (approveUser db row.discord_id approvedBy note tApprove)
      row.discord_id INACTIVITY_DAYS).1 = false := by
    rw [hres]
  have h2 : (isStillActiveApproved owners now
      (approveUser db row.discord_id approvedBy note tApprove)
      row.discord_id INACTIVITY_DAYS).2
      = revokeUser (approveUser db row.discord_id approvedBy note tApprove)
          row.discord_id "system"
          (some ("Auto-revoked: inactive > " ++ toString INACTIVITY_DAYS
            ++ " days")) now := by
    rw [hres]
  refine ⟨hupdmem, h1, ?_⟩
  rw [h2]
  exact revokeUser_marks_row _ row.discord_id "system" _ now
    ⟨row.discord_id, tApprove, approvedBy, note, none, none, some lastUse⟩
    hupdmem rfl rfl

/-- Witness for C10: actor "7" was revoked with a preserved last use at
instant 100; re-approval at instant 1300000 resurrects the record but keeps
the old last use, and the next gate evaluation (one second past the 14-day
inactivity mark measured from instant 100) auto-revokes again. -/
theorem reapproval_inactivity_witness :
    ((⟨"7", 1300000, "9", none, none, none, some 100⟩ : ApprovedUser)
      ∈ approveUser [⟨"7", 0, "9", none, some 5, some "9", some 100⟩]
          "7" "9" none 1300000) ∧
    (isStillActiveApproved [] (14 * 86400 + 101)
        (approveUser [⟨"7", 0, "9", none, some 5, some "9", some 100⟩]
          "7" "9" none 1300000) "7" INACTIVITY_DAYS).1 = false ∧
    (∃ r ∈ (isStillActiveApproved [] (14 * 86400 + 101)
        (approveUser [⟨"7", 0, "9", none, some 5, some "9", some 100⟩]
          "7" "9" none 1300000) "7" INACTIVITY_DAYS).2,
      r.discord_id = "7" ∧ r.revoked_at_utc = some (14 * 86400 + 101)
        ∧ r.revoked_by_discord_id = some "system") :=
  reapproval_preserves_last_use_and_next_gate_revokes []
    [⟨"7", 0, "9", none, some 5, some "9", some 100⟩]
    ⟨"7", 0, "9", none, some 5, some "9", some 100⟩
    "9" none 1300000 (14 * 86400 + 101) 100
    (by decide) (by decide) (by decide) (by decide) (by decide)

/-! ## Date Normalizer (`utils/time.py`, `parse_steam_release_date`)

The parser is embedded over character lists.  Points where the Python can
raise an uncaught exception are modelled by an `Option` result of the whole
function: `parseSteamReleaseDate s = none` means the call raises, `some
(iso?, precision)` is the returned pair.  Unicode-sensitive library pieces
(`str.lower`, `\s`, `\w`, NFKD accent folding in
`_normalize_month_token`) are modelled on their ASCII behaviour; every
alias-table key and every claim input is ASCII. -/

def isAsciiDigit (c : Char) : Bool := '0' ≤ c && c ≤ '9'

def isAsciiAlpha (c : Char) : Bool :=
  ('a' ≤ c && c ≤ 'z') || ('A' ≤ c && c ≤ 'Z')

/-- ASCII lowering, the fragment of Python `str.lower` / `re.IGNORECASE`
exercised here. -/
def pyLowerChar (c : Char) : Char :=
  if 'A' ≤ c && c ≤ 'Z' then Char.ofNat (c.toNat + 32) else c

def pyLowerList (l : List Char) : List Char := l.map pyLowerChar

/-- Word characters for the regex `\b` boundary (ASCII `\w`). -/
def isWordChar (c : Char) : Bool :=
  isAsciiAlpha c || isAsciiDigit c || c = '_'

/-- One collapse pass of `re.sub(r"\s+", " ", s)`: each maximal whitespace
run becomes a single space (`prevSpace` remembers whether the previous
character was part of a run). -/
def collapseWsAux : Bool → List Char → List Char
  | _, [] => []
  | prevSpace, c :: rest =>
    if isPySpace c then
      if prevSpace then collapseWsAux true rest
      else ' ' :: collapseWsAux true rest
    else c :: collapseWsAux false rest

/-- Prefix match of a phrase requiring a word boundary right after it. -/
def phraseAt : List Char → List Char → Bool
  | [], [] => true
  | [], c :: _ => !isWordChar c
  | _ :: _, [] => false
  | p :: ps, c :: cs => p == c && phraseAt ps cs

/-- Scan for any of the phrases at a word boundary
(`re.search(r"\b(...)\b", s)` over an already-lowercased haystack). -/
def scanPhrases (phrases : List (List Char)) :
    Option Char → List Char → Bool
  | _, [] => false
  | prev, c :: rest =>
    ((match prev with
      | none => true
      | some p => !isWordChar p)
      && phrases.any (fun ph => phraseAt ph (c :: rest)))
      || scanPhrases phrases (some c) rest

/-- The "common unknowns" test (time.py line 222): a word-bounded,
case-insensitive occurrence of tba / tbd / to be announced / coming
soon. -/
def hasTbaPhrase (l : List Char) : Bool :=
  scanPhrases ["tba".data, "tbd".data, "to be announced".data,
    "coming soon".data] none (pyLowerList l)

/-- C-locale `%b` month abbreviations used by `strptime`. -/
def monthAbbrevs : List (String × Nat) :=
  [("jan", 1), ("feb", 2), ("mar", 3), ("apr", 4), ("may", 5), ("jun", 6),
   ("jul", 7), ("aug", 8), ("sep", 9), ("oct", 10), ("nov", 11), ("dec", 12)]

/-- C-locale `%B` full month names used by `strptime`. -/
def monthFull : List (String × Nat) :=
  [("january", 1), ("february", 2), ("march", 3), ("april", 4), ("may", 5),
   ("june", 6), ("july", 7), ("august", 8), ("september", 9), ("october", 10),
   ("november", 11), ("december", 12)]

/-- Embedding of `_MONTH_ALIASES` (time.py lines 78-160) after Python dict
key deduplication (every duplicated key maps to the same value). -/
def monthAliases : List (String × Nat) :=
  [("jan", 1), ("january", 1), ("feb", 2), ("february", 2), ("mar", 3),
   ("march", 3), ("apr", 4), ("april", 4), ("may", 5), ("jun", 6),
   ("june", 6), ("jul", 7), ("july", 7), ("aug", 8), ("august", 8),
   ("sep", 9), ("sept", 9), ("september", 9), ("oct", 10), ("october", 10),
   ("nov", 11), ("november", 11), ("dec", 12), ("december", 12),
   ("fev", 2), ("fevereiro", 2), ("abr", 4), ("abril", 4), ("mai", 5),
   ("maio", 5), ("ago", 8), ("set", 9), ("setembro", 9), ("out", 10),
   ("outubro", 10), ("dez", 12), ("dezembro", 12),
   ("janv", 1), ("janvier", 1), ("fevr", 2), ("fevrier", 2), ("mars", 3),
   ("avr", 4), ("avril", 4), ("juin", 6), ("juil", 7), ("juillet", 7),
   ("aout", 8), ("septembre", 9), ("octobre", 10), ("novembre", 11),
   ("decembre", 12),
   ("ene", 1), ("enero", 1), ("febrero", 2), ("marzo", 3), ("mayo", 5),
   ("junio", 6), ("julio", 7), ("agosto", 8), ("septiembre", 9),
   ("octubre", 10), ("noviembre", 11), ("diciembre", 12),
   ("januar", 1), ("februar", 2), ("maerz", 3), ("marz", 3), ("juni", 6),
   ("juli", 7), ("okt", 10), ("oktober", 10), ("dezember", 12)]

/-- Case-insensitive whole-word month lookup against a name table. -/
def lookupMonth (table : List (String × Nat)) (w : List Char) : Option Nat :=
  match table.find? (fun p => p.1.data == pyLowerList w) with
  | some p => some p.2
  | none => none

/-- Embedding of `_normalize_month_token` (time.py lines 163-169): lower,
then keep only `[a-z0-9]` (the dot-strip and whitespace-strip are subsumed
by the final character filter; NFKD accent folding is the identity on the
ASCII keys of the alias table). -/
def normalizeMonthToken (w : List Char) : List Char :=
  (pyLowerList w).filter (fun c => isAsciiDigit c || ('a' ≤ c && c ≤ 'z'))

def digitsToNat (l : List Char) : Nat :=
  l.foldl (fun n c => n * 10 + (c.toNat - 48)) 0

def isLeapYear (y : Nat) : Bool :=
  (y % 4 == 0 && y % 100 != 0) || (y % 400 == 0)

def daysInMonth (y m : Nat) : Nat :=
  if m = 2 then (if isLeapYear y then 29 else 28)
  else if m = 4 ∨ m = 6 ∨ m = 9 ∨ m = 11 then 30
  else 31

def pad2 (n : Nat) : String :=
  if n < 10 then "0" ++ toString n else toString n

def pad4 (n : Nat) : String :=
  if n < 10 then "000" ++ toString n
  else if n < 100 then "00" ++ toString n
  else if n < 1000 then "0" ++ toString n
  else toString n

/-- `datetime(y, m, d, tzinfo=utc)` at midnight, rendered by `isoformat()`:
`none` models the `ValueError` raised outside `MINYEAR..MAXYEAR` (1..9999)
or for an invalid month/day. -/
def mkUtcMidnightIso (y m d : Nat) : Option String :=
  if 1 ≤ y ∧ y ≤ 9999 ∧ 1 ≤ m ∧ m ≤ 12 ∧ 1 ≤ d ∧ d ≤ daysInMonth y m then
    some (pad4 y ++ "-" ++ pad2 m ++ "-" ++ pad2 d ++ "T00:00:00+00:00")
  else none

/-- Split a character list on spaces (the normalized string has single
spaces only). -/
def splitOnSpace : List Char → List (List Char)
  | [] => [[]]
  | c :: rest =>
    let r := splitOnSpace rest
    if c = ' ' then [] :: r
    else
      match r with
      | [] => [[c]]
      | w :: ws => (c :: w) :: ws

/-- Split a character list on slashes. -/
def splitOnSlash : List Char → List (List Char)
  | [] => [[]]
  | c :: rest =>
    let r := splitOnSlash rest
    if c = '/' then [] :: r
    else
      match r with
      | [] => [[c]]
      | w :: ws => (c :: w) :: ws

/-- Lexical `%d` of `strptime` (regex `3[01]|[12]\d|0[1-9]|[1-9]`). -/
def dayLex? (w : List Char) : Option Nat :=
  match w with
  | [a] => if '1' ≤ a && a ≤ '9' then some (a.toNat - 48) else none
  | [a, b] =>
    if a = '3' then
      (if b = '0' || b = '1' then some (30 + (b.toNat - 48)) else none)
    else if a = '1' || a = '2' then
      (if isAsciiDigit b then some ((a.toNat - 48) * 10 + (b.toNat - 48))
       else none)
    else if a = '0' then
      (if '1' ≤ b && b ≤ '9' then some (b.toNat - 48) else none)
    else none
  | _ => none

/-- Lexical `%Y` of `strptime`: exactly four digits. -/
def yearLex? (w : List Char) : Option Nat :=
  if w.length = 4 && w.all isAsciiDigit then some (digitsToNat w) else none

/-- Strip one trailing comma off a token (the literal `,` of the
`"%b %d, %Y"`-family formats ends the second word). -/
def dropTrailingComma? (w : List Char) : Option (List Char) :=
  match w.reverse with
  | ',' :: rest => some rest.reverse
  | _ => none

/-- Lexical match of `"%b %d, %Y"` / `"%B %d, %Y"` (month table chooses
abbreviated or full names) against the word list of the normalized
string. -/
def lexMonthDayYear (table : List (String × Nat))
    (ws : List (List Char)) : Option (Nat × Nat × Nat) :=
  match ws with
  | [w1, w2, w3] =>
    match lookupMonth table w1, dropTrailingComma? w2, yearLex? w3 with
    | some m, some dw, some y =>
      match dayLex? dw with
      | some d => some (y, m, d)
      | none => none
    | _, _, _ => none
  | _ => none

/-- Lexical match of `"%d %b, %Y"` / `"%d %B, %Y"`. -/
def lexDayMonthYear (table : List (String × Nat))
    (ws : List (List Char)) : Option (Nat × Nat × Nat) :=
  match ws with
  | [w1, w2, w3] =>
    match dayLex? w1, dropTrailingComma? w2, yearLex? w3 with
    | some d, some mw, some y =>
      match lookupMonth table mw with
      | some m => some (y, m, d)
      | none => none
    | _, _, _ => none
  | _ => none

/-- The four day formats of time.py lines 226-231, in source order. -/
def dayFormatCandidates (ws : List (List Char)) :
    List (Option (Nat × Nat × Nat)) :=
  [lexMonthDayYear monthAbbrevs ws, lexMonthDayYear monthFull ws,
   lexDayMonthYear monthAbbrevs ws, lexDayMonthYear monthFull ws]

/-- Try day formats in order (time.py lines 232-239): a lexical match whose
date is invalid raises `ValueError` inside the `try`, which is caught, and
the next format is tried. -/
def firstValidDay : List (Option (Nat × Nat × Nat)) → Option String
  | [] => none
  | none :: rest => firstValidDay rest
  | some (y, m, d) :: rest =>
    match mkUtcMidnightIso y m d with
    | some iso => some iso
    | none => firstValidDay rest

/-- Embedding of `_parse_localized_dmy` (time.py lines 172-200): fullmatch
of `(\d{1,2})\s*/\s*([^/\s]+)\s*/\s*(\d{4})`, numeric or alias month, then
a guarded `datetime` construction (`ValueError` is caught and yields
`none`). -/
def parseLocalizedDmy (sNorm : List Char) : Option String :=
  match splitOnSlash sNorm with
  | [seg1, seg2, seg3] =>
    let d1 := seg1.takeWhile isAsciiDigit
    let r1 := seg1.dropWhile isAsciiDigit
    let t2 := (seg2.dropWhile isPySpace).reverse.dropWhile isPySpace |>.reverse
    let t3 := seg3.dropWhile isPySpace
    if (d1.length = 1 || d1.length = 2) && r1.all isPySpace
        && !t2.isEmpty && t2.all (fun c => !isPySpace c)
        && t3.length = 4 && t3.all isAsciiDigit then
      let day := digitsToNat d1
      let year := digitsToNat t3
      let monthNum : Option Nat :=
        if t2.all isAsciiDigit then some (digitsToNat t2)
        else
          match monthAliases.find?
              (fun p => p.1.data == normalizeMonthToken t2) with
          | some p => some p.2
          | none => none
      match monthNum with
      | none => none
      | some m =>
        if 1 ≤ m ∧ m ≤ 12 then mkUtcMidnightIso year m day else none
    else none
  | _ => none

/-- Lexical match of the month+year branch (time.py lines 246-255):
fullmatch `([A-Za-z]+)\s+(\d{4})`, then `strptime` with `"%b %Y"` and
`"%B %Y"`; an out-of-range year raises `ValueError` inside the `try`, so
the branch silently fails. -/
def monthYearBranch (ws : List (List Char)) : Option String :=
  match ws with
  | [w1, w2] =>
    match yearLex? w2 with
    | none => none
    | some y =>
      if !w1.isEmpty && w1.all isAsciiAlpha then
        match lookupMonth monthAbbrevs w1 with
        | some m => mkUtcMidnightIso y m 1
        | none =>
          match lookupMonth monthFull w1 with
          | some m => mkUtcMidnightIso y m 1
          | none => none
      else none
  | _ => none

/-- Anchor month of a quarter (time.py line 262). -/
def quarterStartMonth (q : Nat) : Nat :=
  if q = 1 then 1 else if q = 2 then 4 else if q = 3 then 7 else 10

/-- Lexical match of `Q([1-4])\s+(\d{4})` (case-insensitive), returning
(year, anchor month). -/
def quarterLex (ws : List (List Char)) : Option (Nat × Nat) :=
  match ws with
  | [[qc, dc], w2] =>
    if (qc == 'Q' || qc == 'q') && ('1' ≤ dc && dc ≤ '4') then
      match yearLex? w2 with
      | some y => some (y, quarterStartMonth (dc.toNat - 48))
      | none => none
    else none
  | _ => none

/-- Season anchor months (time.py lines 273-279), matched
case-insensitively. -/
def seasonStartMonth (w : List Char) : Option Nat :=
  let t := pyLowerList w
  if t == "spring".data then some 3
  else if t == "summer".data then some 6
  else if t == "fall".data then some 9
  else if t == "autumn".data then some 9
  else if t == "winter".data then some 12
  else none

/-- Lexical match of `(Spring|Summer|Fall|Autumn|Winter)\s+(\d{4})`. -/
def seasonLex (ws : List (List Char)) : Option (Nat × Nat) :=
  match ws with
  | [w1, w2] =>
    match seasonStartMonth w1, yearLex? w2 with
    | some m, some y => some (y, m)
    | _, _ => none
  | _ => none

/-- Lexical match of `(Early|Mid|Late)\s+(\d{4})` (case-insensitive). -/
def earlyLateLex (ws : List (List Char)) : Option Nat :=
  match ws with
  | [w1, w2] =>
    let t := pyLowerList w1
    if t == "early".data || t == "mid".data || t == "late".data then
      yearLex? w2
    else none
  | _ => none

/-- Embedding of `parse_steam_release_date` (time.py lines 203-300).  The
outer `Option` models exceptions: `none` means the Python call raises an
uncaught `ValueError` (possible only in the quarter, season and
Early/Mid/Late branches, whose `datetime` constructions are not inside a
`try`); `some (iso?, precision)` is the returned pair. -/
def parseSteamReleaseDate (dateText : String) :
    Option (Option String × String) :=
  let s := pyStrip dateText
  if s = "" then some (none, "unknown")
  else
    let sNorm : List Char :=
      ((collapseWsAux false s.data).dropWhile isPySpace).reverse.dropWhile
        isPySpace |>.reverse
    if hasTbaPhrase sNorm then some (none, "unknown")
    else
      let ws := splitOnSpace sNorm
      match firstValidDay (dayFormatCandidates ws) with
      | some iso => some (some iso, "day")
      | none =>
        match parseLocalizedDmy sNorm with
        | some iso => some (some iso, "day")
        | none =>
          match monthYearBranch ws with
          | some iso => some (some iso, "month")
          | none =>
            match quarterLex ws with
            | some (y, m) =>
              (mkUtcMidnightIso y m 1).map (fun iso => (some iso, "quarter"))
            | none =>
              match seasonLex ws with
              | some (y, m) =>
                (mkUtcMidnightIso y m 1).map (fun iso => (some iso, "season"))
              | none =>
                if !sNorm.isEmpty && sNorm.all isAsciiDigit
                    && sNorm.length = 4 then
                  match mkUtcMidnightIso (digitsToNat sNorm) 1 1 with
                  | some iso => some (some iso, "year")
                  | none => some (none, "unknown")
                else
                  match earlyLateLex ws with
                  | some y =>
                    (mkUtcMidnightIso y 1 1).map
                      (fun iso => (some iso, "year"))
                  | none => some (none, "unknown")

/-- C5: the three specification scenarios of the date parser, computed on
the embedding: "Jan 20, 2026" parses to the day-precision midnight-UTC
instant, "Q3 2026" anchors to July 1 with quarter precision, and "Coming
Soon" yields no instant with unknown precision (and none of the three
raises). -/
theorem parse_release_date_scenarios :
    parseSteamReleaseDate "Jan 20, 2026"
      = some (some "2026-01-20T00:00:00+00:00", "day") ∧
    parseSteamReleaseDate "Q3 2026"
      = some (some "2026-07-01T00:00:00+00:00", "quarter") ∧
    parseSteamReleaseDate "Coming Soon" = some (none, "unknown") :=
  ⟨by decide, by decide, by decide⟩

/-- C6 (code bug): the parser is NOT total.  The quarter, season and
Early/Mid/Late branches construct `datetime(year, month, 1)` outside any
`try` (time.py lines 263, 281, 297), so the four-digit year 0000 raises an
uncaught `ValueError` ("year 0 is out of range") there — while the bare
year branch (lines 287-291) guards the very same construction with
`except ValueError` and returns `(None, "unknown")`.  In the embedding
`= none` is the raised exception. -/
theorem parse_release_date_raises_on_year_zero :
    parseSteamReleaseDate "Q3 0000" = none ∧
    parseSteamReleaseDate "Winter 0000" = none ∧
    parseSteamReleaseDate "Early 0000" = none ∧
    parseSteamReleaseDate "0000" = some (none, "unknown") :=
  ⟨by decide, by decide, by decide, by decide⟩

/-! ## Sale-digest job core (`services/scheduler.py`,
`_run_wishlist_for_guild` lines 326-448)

Per channel the job fetches a price snapshot per wishlist item, keeps the
discounted ones, sorts them steepest-discount-first with Python's stable
`list.sort(key=..., reverse=True)`, and sends embeds built from
`on_sale[:10]` — or nothing when no item is on sale.  The snapshot fetch is
a function argument (`none` models a raised or falsy fetch, which the loop
skips); the message sent to the channel is modelled as the ordered snapshot
list the embeds are built from.  `TESTING_MODE` is `False` in settings.py,
so the testing-channel filter is inactive. -/

/-- Lexicographic code-point comparison of character lists: the fragment of
Python string `<=` used for a name tie-break. -/
def charListLe : List Char → List Char → Bool
  | [], _ => true
  | _ :: _, [] => false
  | a :: as, b :: bs =>
    if a.toNat < b.toNat then true
    else if b.toNat < a.toNat then false
    else charListLe as bs

structure PriceSnap where
  name : String
  discount_percent : Option Int
  final : Option String
  initial : Option String
  store_url : String
  header_image : String
deriving Repr, DecidableEq

/-- Embedding of the on-sale collection loop (scheduler.py lines 366-381):
skip failed/empty snapshots, keep those with `discount_percent or 0 > 0`
(snapshot discounts are ints, so the `isinstance` guard always holds). -/
def collectOnSale (snapOf : Int → Option PriceSnap)
    (items : List (Int × String)) : List PriceSnap :=
  items.foldl (fun acc it =>
    match snapOf it.1 with
    | none => acc
    | some snap =>
      if 0 < snap.discount_percent.getD 0 then acc ++ [snap] else acc) []

/-- Embedding of `on_sale.sort(key=discount, reverse=True)` (scheduler.py
line 385): Python's sort is stable, and a stable descending sort equals
insertion sort with the ≥-on-key relation (equal keys keep their original
relative order). -/
def sortByDiscountDesc (l : List PriceSnap) : List PriceSnap :=
  l.insertionSort (fun a b =>
    b.discount_percent.getD 0 ≤ a.discount_percent.getD 0)

/-- What the digest job sends to one channel (scheduler.py lines 382-434):
`none` when the channel has zero on-sale items (no message), otherwise the
ordered list of snapshots the embeds are built from (`on_sale[:10]`). -/
def digestForChannel (snapOf : Int → Option PriceSnap)
    (items : List (Int × String)) : Option (List PriceSnap) :=
  let onSale := collectOnSale snapOf items
  if onSale.isEmpty then none
  else some ((sortByDiscountDesc onSale).take 10)

/-- The digest exactly as the C8 claim words it: ALL currently discounted
items, ordered steepest discount first with the item name as tie-break; a
channel with zero on-sale items gets no message.  (Spec-side definition,
for refutation against `digestForChannel`.) -/
def claimedDigestForChannel (snapOf : Int → Option PriceSnap)
    (items : List (Int × String)) : Option (List PriceSnap) :=
  let onSale := (items.filterMap (fun it => snapOf it.1)).filter
    (fun snap => 0 < snap.discount_percent.getD 0)
  if onSale.isEmpty then none
  else some (onSale.insertionSort (fun a b =>
    b.discount_percent.getD 0 < a.discount_percent.getD 0
      ∨ (b.discount_percent.getD 0 = a.discount_percent.getD 0
          ∧ charListLe a.name.data b.name.data = true)))

/-- The digest as amended by the counterexample: the discounted items among
the successfully fetched snapshots, steepest discount first with ties in
original wishlist order, truncated to the ten steepest entries; zero
on-sale items mean no message. -/
def amendedDigestForChannel (snapOf : Int → Option PriceSnap)
    (items : List (Int × String)) : Option (List PriceSnap) :=
  let onSale := (items.filterMap (fun it => snapOf it.1)).filter
    (fun snap => 0 < snap.discount_percent.getD 0)
  if onSale.isEmpty then none
  else some ((onSale.insertionSort (fun a b =>
    b.discount_percent.getD 0 ≤ a.discount_percent.getD 0)).take 10)

/-- A minimal price snapshot with a name and a discount. -/
def saleSnap (nm : String) (disc : Int) : PriceSnap :=
  ⟨nm, some disc, none, none, "", ""⟩

/-- Channel wishlist for the C8 counterexample: items 1 ("B") and 2 ("A")
tie at 50% in non-alphabetical wishlist order; items 3-11 have distinct
steeper discounts, for eleven on-sale items in total. -/
def c8WishlistItems : List (Int × String) :=
  [(1, "B"), (2, "A"), (3, "G3"), (4, "G4"), (5, "G5"), (6, "G6"),
   (7, "G7"), (8, "G8"), (9, "G9"), (10, "G10"), (11, "G11")]

/-- Price snapshots for the C8 counterexample. -/
def c8Snapshots : Int → Option PriceSnap := fun i =>
  if i = 1 then some (saleSnap "B" 50)
  else if i = 2 then some (saleSnap "A" 50)
  else if i = 3 then some (saleSnap "G3" 60)
  else if i = 4 then some (saleSnap "G4" 59)
  else if i = 5 then some (saleSnap "G5" 58)
  else if i = 6 then some (saleSnap "G6" 57)
  else if i = 7 then some (saleSnap "G7" 56)
  else if i = 8 then some (saleSnap "G8" 55)
  else if i = 9 then some (saleSnap "G9" 54)
  else if i = 10 then some (saleSnap "G10" 53)
  else if i = 11 then some (saleSnap "G11" 52)
  else none

/-- C8 counterexample: on a channel with eleven discounted wishlist items,
the code's digest is NOT the claimed one — the code truncates to the ten
steepest entries (dropping the discounted "A") and breaks the 50% tie by
original wishlist order ("B" stays ahead of the alphabetically earlier
"A"), while the claim prescribes all eleven with a name tie-break. -/
theorem wishlist_digest_counterexample :
    digestForChannel c8Snapshots c8WishlistItems
      ≠ claimedDigestForChannel c8Snapshots c8WishlistItems ∧
    digestForChannel c8Snapshots c8WishlistItems
      = some [saleSnap "G3" 60, saleSnap "G4" 59, saleSnap "G5" 58,
          saleSnap "G6" 57, saleSnap "G7" 56, saleSnap "G8" 55,
          saleSnap "G9" 54, saleSnap "G10" 53, saleSnap "G11" 52,
          saleSnap "B" 50] ∧
    claimedDigestForChannel c8Snapshots c8WishlistItems
      = some [saleSnap "G3" 60, saleSnap "G4" 59, saleSnap "G5" 58,
          saleSnap "G6" 57, saleSnap "G7" 56, saleSnap "G8" 55,
          saleSnap "G9" 54, saleSnap "G10" 53, saleSnap "G11" 52,
          saleSnap "A" 50, saleSnap "B" 50] :=
  ⟨by decide, by decide, by decide⟩

theorem collectOnSale_eq_filter (snapOf : Int → Option PriceSnap) :
    ∀ (items : List (Int × String)) (acc : List PriceSnap),
      items.foldl (fun acc it =>
        match snapOf it.1 with
        | none => acc
        | some snap =>
          if 0 < snap.discount_percent.getD 0 then acc ++ [snap]
          else acc) acc
      = acc ++ (items.filterMap (fun it => snapOf it.1)).filter
          (fun snap => 0 < snap.discount_percent.getD 0) := by
  intro items
  induction items with
  | nil => intro acc; simp
  | cons it rest ih =>
    intro acc
    rw [List.foldl_cons, List.filterMap_cons]
    cases hsnap : snapOf it.1 with
    | none =>
      rw [ih acc]
    | some snap =>
      rw [List.filter_cons]
      have hred : (match some snap with
          | none => acc
          | some snap =>
            if 0 < snap.discount_percent.getD 0 then acc ++ [snap] else acc)
          = if 0 < snap.discount_percent.getD 0 then acc ++ [snap]
            else acc := rfl
      rw [hred]
      by_cases hdisc : 0 < snap.discount_percent.getD 0
      · rw [if_pos hdisc, ih (acc ++ [snap]), if_pos (by simpa using hdisc)]
        simp
      · rw [if_neg hdisc, ih acc, if_neg (by simpa using hdisc)]

/-- C8 (amended): for every channel wishlist and every snapshot outcome,
the digest the code sends equals the amended description — the discounted
items among the fetched snapshots, steepest discount first with ties kept
in original wishlist order, truncated to the ten steepest entries — and a
channel with zero on-sale items receives no message. -/
theorem wishlist_digest_matches_amended_spec
    (snapOf : Int → Option PriceSnap) (items : List (Int × String)) :
    digestForChannel snapOf items = amendedDigestForChannel snapOf items := by
  unfold digestForChannel amendedDigestForChannel collectOnSale
    sortByDiscountDesc
  rw [collectOnSale_eq_filter snapOf items []]
  rfl

/-! ## Media-manager add (`clients/radarr_client.py`, `commands/media.py`)

The HTTP transport is modelled by the response the remote answers with;
`Except.error` models a raised exception whose message is the error string
(the `type(e).__name__` prefix of the user-facing rendering is folded into
the message).  JSON parsing of an error body only changes the text of the
non-"already_added" failure message and is elided. -/

structure HttpResponse where
  status : Nat
  body : String
deriving Repr, DecidableEq

/-- Python slicing `body[:n]`. -/
def takeChars (n : Nat) (s : String) : String := ⟨s.data.take n⟩

/-- Python `.replace("\n", " ")` on the snippet. -/
def newlinesToSpaces (s : String) : String :=
  ⟨s.data.map (fun c => if c = '\n' then ' ' else c)⟩

def startsWithChars : List Char → List Char → Bool
  | [], _ => true
  | _ :: _, [] => false
  | a :: as, b :: bs => a == b && startsWithChars as bs

/-- Python substring containment (`needle in haystack`). -/
def containsSub (needle : List Char) : List Char → Bool
  | [] => needle.isEmpty
  | c :: rest => startsWithChars needle (c :: rest) || containsSub needle rest

/-- Embedding of `RadarrClient._post` (radarr_client.py lines 42-69) as a
function of the remote's response: a 2xx status returns the body; any other
status raises `RuntimeError("already_added")` when the lowered 1200-char
newline-flattened snippet of the body contains "already been added" or
"already exists", and a `radarr_http_{status}` error otherwise. -/
def radarrPostOutcome (resp : HttpResponse) : Except String String :=
  if resp.status < 200 ∨ 300 ≤ resp.status then
    if containsSub "already been added".data
          (pyLowerList (newlinesToSpaces (takeChars 1200 resp.body)).data)
        || containsSub "already exists".data
          (pyLowerList (newlinesToSpaces (takeChars 1200 resp.body)).data) then
      Except.error "already_added"
    else
      Except.error ("radarr_http_" ++ toString resp.status ++ ": "
        ++ newlinesToSpaces (takeChars 1200 resp.body))
  else
    Except.ok resp.body

/-- Embedding of `RadarrClient.add_movie_by_tmdb` (radarr_client.py lines
96-137).  Collaborator state is an argument: `existing` is the
`get_movie_by_tmdb` library lookup, `lookupResults` the `lookup_movie`
candidates, `addResp` the response to the add POST.  A raised
`RuntimeError("already_added")` from the POST is caught and returned as the
"already_added" status; every other exception propagates. -/
def addMovieByTmdb (tmdbId : Int) (existing : Option String)
    (lookupResults : List String) (addResp : HttpResponse) :
    Except String String :=
  if tmdbId ≤ 0 then
    Except.error "ValueError: tmdb_id must be a positive int"
  else if existing.isSome then
    Except.ok "already_added"
  else if lookupResults.isEmpty then
    Except.error ("No Radarr lookup results for tmdb:" ++ toString tmdbId)
  else
    match radarrPostOutcome addResp with
    | Except.ok _ => Except.ok "added"
    | Except.error e =>
      if e = "already_added" then Except.ok "already_added"
      else Except.error e

/-- User-facing strings of media.py lines 15-17. -/
def MEDIA_ADDED_TO_QUEUE : String :=
  "Added to download queue. It should be available in the next few weeks."

def MEDIA_ALREADY_ON_PLEX : String := "Already on Plex."

def MEDIA_ALREADY_IN_QUEUE : String :=
  "Already in download queue. It should be available in the next few weeks."

/-- The message `handle_plexmovie` reports from the add outcome (media.py
lines 158-178): a raised exception becomes a "Failed." message; the
`already_added` status resolves — via the library presence check `onPlex` —
to the already-on-Plex or already-queued message; `added` reports
queued. -/
def plexmovieMessage (res : Except String String) (onPlex : Bool) : String :=
  match res with
  | Except.error e => "Failed. " ++ e
  | Except.ok status =>
    if status = "already_added" then
      if onPlex then MEDIA_ALREADY_ON_PLEX else MEDIA_ALREADY_IN_QUEUE
    else MEDIA_ADDED_TO_QUEUE

/-- C9: for a media-manager add whose remote POST answers a non-2xx
response, if the response body carries an "already exists"-style message
the operation returns the domain outcome `already_added` — reported to the
user as already-on-Plex or already-queued, never as a failure — while any
other error response propagates as a `radarr_http_` failure that the user
sees as a "Failed." message. -/
theorem radarr_already_exists_becomes_already_added
    (tmdbId : Int) (lookupResults : List String) (addResp : HttpResponse)
    (onPlex : Bool) (hid : 0 < tmdbId)
    (hlk : lookupResults.isEmpty = false)
    (herr : addResp.status < 200 ∨ 300 ≤ addResp.status) :
    ((containsSub "already been added".data
          (pyLowerList (newlinesToSpaces (takeChars 1200 addResp.body)).data)
        || containsSub "already exists".data
          (pyLowerList (newlinesToSpaces (takeChars 1200 addResp.body)).data))
        = true →
      addMovieByTmdb tmdbId none lookupResults addResp
        = Except.ok "already_added" ∧
      plexmovieMessage (addMovieByTmdb tmdbId none lookupResults addResp)
          onPlex
        = (if onPlex then MEDIA_ALREADY_ON_PLEX else MEDIA_ALREADY_IN_QUEUE)) ∧
    ((containsSub "already been added".data
          (pyLowerList (newlinesToSpaces (takeChars 1200 addResp.body)).data)
        || containsSub "already exists".data
          (pyLowerList (newlinesToSpaces (takeChars 1200 addResp.body)).data))
        = false →
      addMovieByTmdb tmdbId none lookupResults addResp
        = Except.error ("radarr_http_" ++ toString addResp.status ++ ": "
            ++ newlinesToSpaces (takeChars 1200 addResp.body)) ∧
      plexmovieMessage (addMovieByTmdb tmdbId none lookupResults addResp)
          onPlex
        = "Failed. " ++ ("radarr_http_" ++ toString addResp.status ++ ": "
            ++ newlinesToSpaces (takeChars 1200 addResp.body))) := by
  have hmain : addMovieByTmdb tmdbId none lookupResults addResp
      = (match radarrPostOutcome addResp with
         | Except.ok _ => Except.ok "added"
         | Except.error e =>
           if e = "already_added" then Except.ok "already_added"
           else Except.error e) := by
    unfold addMovieByTmdb
    rw [if_neg (not_le.mpr hid), if_neg (by simp), if_neg (by simp [hlk])]
  constructor
  · intro hc
    have hpost : radarrPostOutcome addResp = Except.error "already_added" := by
      unfold radarrPostOutcome
      rw [if_pos herr, if_pos hc]
    have hres : addMovieByTmdb tmdbId none lookupResults addResp
        = Except.ok "already_added" := by
      rw [hmain, hpost]
      simp
    refine ⟨hres, ?_⟩
    rw [hres]
    unfold plexmovieMessage
    simp
  · intro hc
    have hpost : radarrPostOutcome addResp
        = Except.error ("radarr_http_" ++ toString addResp.status ++ ": "
            ++ newlinesToSpaces (takeChars 1200 addResp.body)) := by
      unfold radarrPostOutcome
      rw [if_pos herr, if_neg (by simp [hc])]
    have hpre : ("radarr_http_" ++ toString addResp.status ++ ": "
        ++ newlinesToSpaces (takeChars 1200 addResp.body)).data.take 6
        = "radarr".data := rfl
    have hne : ("radarr_http_" ++ toString addResp.status ++ ": "
        ++ newlinesToSpaces (takeChars 1200 addResp.body)) ≠ "already_added" := by
      intro he
      rw [he] at hpre
      exact absurd hpre (by decide)
    have hres : addMovieByTmdb tmdbId none lookupResults addResp
        = Except.error ("radarr_http_" ++ toString addResp.status ++ ": "
            ++ newlinesToSpaces (takeChars 1200 addResp.body)) := by
      rw [hmain, hpost]
      simp [hne]
    refine ⟨hres, ?_⟩
    rw [hres]
    rfl

/-- Witness for C9: a 400 response whose body says the movie "has already
been added": the add operation returns the `already_added` outcome and the
user is told the item is already queued (the library check is negative),
not that the command failed. -/
theorem radarr_already_exists_witness :
    addMovieByTmdb 603 none ["m"]
        ⟨400, "This movie has already been added to Radarr"⟩
      = Except.ok "already_added" ∧
    plexmovieMessage (addMovieByTmdb 603 none ["m"]
        ⟨400, "This movie has already been added to Radarr"⟩) false
      = MEDIA_ALREADY_IN_QUEUE :=
  have h := radarr_already_exists_becomes_already_added 603 ["m"]
    ⟨400, "This movie has already been added to Radarr"⟩ false
    (by decide) (by decide) (by decide)
  have hc := h.1 (by decide)
  ⟨hc.1, hc.2.trans (by decide)⟩

end IngridPatel
